import Mathlib

/-!
Shallow embedding of the ST7789V display driver core
(src/drivers/st7789v.c and src/drivers/st7789v.h) and proofs about it.

Numeric values (error codes, command opcodes, pin numbers, baud rates) are
taken literally from src/drivers/st7789v.h.  Each Lean definition mirrors one
C function of src/drivers/st7789v.c; the C source line is given next to each
definition.  Machine integers are modelled as Nat (parameters, opcodes) and
Int (returned error expressions); a C `return -EFOO;` is modelled by the Int
value of the returned expression, before any implicit narrowing done by the
declared return type of the C function.

Global mutable driver state (src/drivers/st7789v.c lines 22-64) is collected
in one structure `DriverState` that every modelled function threads through
explicitly.  Externally visible effects (GPIO writes, SPI transfers, DMA
trigger, alarm scheduling, semaphore release, lock transitions) are recorded
in a trace of `Event`s returned alongside the result.
-/

namespace ST7789V

/-- Error codes, st7789v.h lines 38-46 (enum st7789v_error_t). -/
def ENODISPLAYCONNECTED : Int := 1
def EDISPLAYBUSY : Int := 2
def ENODMAAVAILABLE : Int := 4
def ENOTINRANGE : Int := 5

/-- Display id constant, st7789v.h line 34. -/
def ST7789V_DISPLAY_ID : Nat := 0x858552

/-- Pin assignments, st7789v.h lines 27-31. -/
def ST7789V_PIN_MISO : Nat := 16
def ST7789V_PIN_CS : Nat := 17
def ST7789V_PIN_SCK : Nat := 18
def ST7789V_PIN_MOSI : Nat := 19
def ST7789V_PIN_DC : Nat := 20

/-- Baud rates, st7789v.h lines 23-25. -/
def ST7789V_SPI_BAUDRATE : Nat := 62500000
def ST7789V_READING_BAUDRATE : Nat := 6666666
def ST7789V_WRITING_BAUDRATE : Nat := 62500000

/-- Command opcodes, st7789v.h lines 63-147 (enum st7789v_command_t). -/
def COMMAND_NO_OPERATION : Nat := 0x00
def COMMAND_SOFTWARE_RESET : Nat := 0x01
def COMMAND_READ_DISPLAY_ID : Nat := 0x04
def COMMAND_READ_DISPLAY_STATUS : Nat := 0x09
def COMMAND_READ_DISPLAY_POWER : Nat := 0x0A
def COMMAND_READ_DISPLAY_MEMORY_ACCESS_CONTROL : Nat := 0x0B
def COMMAND_READ_DISPLAY_COLOR_PIXEL_FORMAT : Nat := 0x0C
def COMMAND_READ_DISPLAY_IMAGE_MODE : Nat := 0x0D
def COMMAND_READ_DISPLAY_SIGNAL_MODE : Nat := 0x0E
def COMMAND_READ_DISPLAY_SELF_DIAGNOSTIC : Nat := 0x0F
def COMMAND_SLEEP_IN : Nat := 0x10
def COMMAND_SLEEP_OUT : Nat := 0x11
def COMMAND_PARTIAL_DISPLAY_MODE_ON : Nat := 0x12
def COMMAND_NORMAL_DISPLAY_MODE_ON : Nat := 0x13
def COMMAND_DISPLAY_INVERSION_OFF : Nat := 0x20
def COMMAND_DISPLAY_INVERSION_ON : Nat := 0x21
def COMMAND_GAMMA_SET : Nat := 0x26
def COMMAND_DISPLAY_OFF : Nat := 0x28
def COMMAND_DISPLAY_ON : Nat := 0x29
def COMMAND_COLUMN_ADDRESS_SET : Nat := 0x2A
def COMMAND_ROW_ADDRESS_SET : Nat := 0x2B
def COMMAND_MEMORY_WRITE : Nat := 0x2C
def COMMAND_MEMORY_READ : Nat := 0x2E
def COMMAND_PARTIAL_AREA : Nat := 0x30
def COMMAND_VERTICAL_SCROLLING_DEFINITION : Nat := 0x33
def COMMAND_TEARING_EFFECT_LINE_OFF : Nat := 0x34
def COMMAND_TEARING_EFFECT_LINE_ON : Nat := 0x35
def COMMAND_MEMORY_ACCESS_CONTROL : Nat := 0x36
def COMMAND_VERTICAL_SCROLL_START_ADDRESS : Nat := 0x37
def COMMAND_IDLE_MODE_OFF : Nat := 0x38
def COMMAND_IDLE_MODE_ON : Nat := 0x39
def COMMAND_COLOR_PIXEL_FORMAT : Nat := 0x3A
def COMMAND_MEMORY_WRITE_CONTINUE : Nat := 0x3C
def COMMAND_MEMORY_READ_CONTINUE : Nat := 0x3E
def COMMAND_SET_TEAR_SCANLINE : Nat := 0x44
def COMMAND_GET_SCANLINE : Nat := 0x45
def COMMAND_WRITE_DISPLAY_BRIGHTNESS : Nat := 0x51
def COMMAND_READ_DISPLAY_BRIGHTNESS : Nat := 0x52
def COMMAND_WRITE_CTRL_DISPLAY : Nat := 0x53
def COMMAND_READ_CTRL_DISPLAY : Nat := 0x54
def COMMAND_WRITE_CONTENT_ADAPTIVE_BRIGHTNESS_COLOR_ENHANCEMENT : Nat := 0x55
def COMMAND_READ_CONTENT_ADAPTIVE_BRIGHTNESS : Nat := 0x56
def COMMAND_WRITE_CONTENT_ADAPTIVE_MINIMUM_BRIGHTNESS : Nat := 0x5E
def COMMAND_READ_CONTENT_ADAPTIVE_MINIMUM_BRIGHTNESS : Nat := 0x5F
def COMMAND_READ_AUTOMATIC_BRIGHTNESS_SELF_DIAGNOSTIC : Nat := 0x68
def COMMAND_READ_ID_1 : Nat := 0xDA
def COMMAND_READ_ID_2 : Nat := 0xDB
def COMMAND_READ_ID_3 : Nat := 0xDC

/-- The five pico mutexes of the driver, st7789v.c lines 37-64. -/
inductive LockId where
  | busy
  | comm
  | sleep
  | sleepSwitchState
  | reset
deriving DecidableEq

/-- Target mutex of a scheduled `unlock_mutex_alarm_callback` alarm
(third argument of add_alarm_in_ms, st7789v.c lines 450-451, 701-702,
729-730). -/
inductive AlarmTarget where
  | resetLockT
  | sleepLockT
  | sleepSwitchStateLockT
deriving DecidableEq

/-- Externally visible actions performed by the driver, in program order.
gpioPut / setBaudrate / spiWrite / spiRead / dummyCycle / dmaTrigger /
drFlushRead are physical bus or pin activity; mutexEnter / mutexExit record
lock transitions; alarmSet records add_alarm_in_ms; semRelease records
sem_release; irqAck records dma_channel_acknowledge_irq0; logMsg records
DRV_LOG. -/
inductive Event where
  | gpioPut (pin : Nat) (value : Bool)
  | setBaudrate (baud : Nat)
  | spiWrite (bytes : List Nat)
  | spiRead (count : Nat)
  | dummyCycle
  | dmaTrigger (count : Nat)
  | drFlushRead
  | mutexEnter (l : LockId)
  | mutexExit (l : LockId)
  | alarmSet (ms : Nat) (target : AlarmTarget)
  | semRelease (handle : Nat)
  | irqAck
  | logMsg
deriving DecidableEq

/-- Physical bus / pin activity (SPI bytes, chip-select and data-command
line levels, DMA trigger, dummy clock pulse, data-register flush read). -/
def Event.isBusActivity : Event → Bool
  | .gpioPut _ _ => true
  | .setBaudrate _ => true
  | .spiWrite _ => true
  | .spiRead _ => true
  | .dummyCycle => true
  | .dmaTrigger _ => true
  | .drFlushRead => true
  | _ => false

/-- Bytes physically written on the SPI bus by a trace. -/
def spiWrites : List Event → List (List Nat)
  | [] => []
  | .spiWrite bs :: rest => bs :: spiWrites rest
  | _ :: rest => spiWrites rest

/-- The process-wide mutable driver state, st7789v.c lines 22-64.
Each pico `mutex_t` is modelled by a Bool that is true exactly when the
mutex has an owner (`lock.owner != LOCK_INVALID_OWNER_ID`).
`dma_channel_busy` models `dma_channel_is_busy(dma_data_channel)` (a
hardware transfer is in flight); `dma_irq0_status` models
`dma_channel_get_irq0_status(dma_data_channel)` (transfer finished, its
interrupt not yet acknowledged).  `pending_alarms` collects the alarms
scheduled with add_alarm_in_ms and not yet fired.  `cs_pin` and `dc_pin`
hold the last levels driven on the CS and DC lines. -/
structure DriverState where
  is_plugged : Bool
  dma_channel_busy : Bool
  dma_irq0_status : Bool
  busy_lock : Bool
  communication_lock : Bool
  sleep_lock : Bool
  sleep_switch_state_lock : Bool
  reset_lock : Bool
  dma_operation_completion_signal : Option Nat
  dma_operation_close_comm : Bool
  cs_pin : Bool
  dc_pin : Bool
  pending_alarms : List (Nat × AlarmTarget)
deriving DecidableEq

/-- st7789v.c lines 121-124: `dma_channel_is_busy(dma_data_channel)`. -/
def st7789v_is_dma_busy (s : DriverState) : Bool :=
  s.dma_channel_busy

/-- st7789v.c lines 126-129: `reset_lock.owner != LOCK_INVALID_OWNER_ID`. -/
def st7789v_is_reset_busy (s : DriverState) : Bool :=
  s.reset_lock

/-- st7789v.c lines 131-134: `sleep_lock.owner != LOCK_INVALID_OWNER_ID`.
Note: this inspects sleep_lock only; sleep_switch_state_lock is not
consulted anywhere. -/
def st7789v_is_sleep_busy (s : DriverState) : Bool :=
  s.sleep_lock

/-- The advisory guard disjunction that public operations evaluate,
in source order: dma, then reset, then sleep. -/
def busyGuard (s : DriverState) : Bool :=
  st7789v_is_dma_busy s || st7789v_is_reset_busy s || st7789v_is_sleep_busy s

/-- Result of a modelled driver call: the Int value of the expression in the
taken `return` statement, the post state, and the event trace. -/
abbrev OpResult := Int × DriverState × List Event

/-- st7789v.c lines 136-147: begin a communication (acquire
communication_lock, drive CS low).  The blocking mutex_enter_blocking is
modelled as an immediate acquisition: in the single-caller regime of the
driver (spec section 5) the caller never contends with itself, and the one
cross-context holder (a DMA transfer with close_comm set) is excluded by the
advisory guard every public operation runs first. -/
def st7789v_begin_comm (s : DriverState) : OpResult :=
  if !s.is_plugged then
    (-ENODISPLAYCONNECTED, s, [])
  else
    let s := { s with communication_lock := true }
    let s := { s with cs_pin := false }
    (0, s, [.mutexEnter .comm, .gpioPut ST7789V_PIN_CS false])

/-- st7789v.c lines 149-160: end a communication.  When unplugged the source
executes `return false;`, whose value is 0 — the success value — not
-ENODISPLAYCONNECTED. -/
def st7789v_end_comm (s : DriverState) : OpResult :=
  if !s.is_plugged then
    (0, s, [])
  else
    let s := { s with cs_pin := true }
    let s := { s with communication_lock := false }
    (0, s, [.gpioPut ST7789V_PIN_CS true, .mutexExit .comm])

/-- st7789v.c lines 162-165: drive the DC line low.  The C function returns
void and performs no plugged or busy check. -/
def st7789v_begin_command (s : DriverState) : DriverState × List Event :=
  ({ s with dc_pin := false }, [.gpioPut ST7789V_PIN_DC false])

/-- st7789v.c lines 167-170: drive the DC line high.  The C function returns
void and performs no plugged or busy check. -/
def st7789v_end_command (s : DriverState) : DriverState × List Event :=
  ({ s with dc_pin := true }, [.gpioPut ST7789V_PIN_DC true])

/-- st7789v.c lines 102-119: one bit-banged clock pulse, a no-op when a DMA
transfer is in flight. -/
def st7789v_dummy_cycle (s : DriverState) : DriverState × List Event :=
  if s.dma_channel_busy then
    (s, [])
  else
    (s, [.dummyCycle])

/-- st7789v.c lines 172-190: synchronous blocking write.  The read data path
of the SPI peripheral is not modelled; the bytes written are recorded in the
trace. -/
def st7789v_write_sync (buffer : List Nat) (s : DriverState) : OpResult :=
  if !s.is_plugged then
    (-ENODISPLAYCONNECTED, s, [])
  else if st7789v_is_dma_busy s || st7789v_is_reset_busy s
          || st7789v_is_sleep_busy s then
    (-EDISPLAYBUSY, s, [])
  else
    let s := { s with busy_lock := true }
    let s := { s with busy_lock := false }
    (0, s,
      [.mutexEnter .busy, .setBaudrate ST7789V_WRITING_BAUDRATE,
       .spiWrite buffer, .mutexExit .busy])

/-- st7789v.c lines 192-209: synchronous blocking read.  The bytes received
are abstracted (no claim depends on read data); the buffer is modelled as
filled with zeros. -/
def st7789v_read_sync (count : Nat) (s : DriverState) :
    Int × List Nat × DriverState × List Event :=
  if !s.is_plugged then
    (-ENODISPLAYCONNECTED, List.replicate count 0, s, [])
  else if st7789v_is_dma_busy s || st7789v_is_reset_busy s
          || st7789v_is_sleep_busy s then
    (-EDISPLAYBUSY, List.replicate count 0, s, [])
  else
    let s := { s with busy_lock := true }
    let s := { s with busy_lock := false }
    (0, List.replicate count 0, s,
      [.mutexEnter .busy, .setBaudrate ST7789V_READING_BAUDRATE,
       .spiRead count, .mutexExit .busy])

/-- st7789v.c lines 211-254: configure and trigger a one-shot DMA write.
The completion signal handle and the close_comm flag are stored before
busy_lock is acquired (lines 235-238); the function returns with busy_lock
still held and the channel busy. -/
def st7789v_dma_write (size : Nat) (completion_signal : Option Nat)
    (close_comm_when_finish : Bool) (s : DriverState) : OpResult :=
  if !s.is_plugged then
    (-ENODISPLAYCONNECTED, s, [])
  else if st7789v_is_dma_busy s || st7789v_is_reset_busy s
          || st7789v_is_sleep_busy s then
    (-EDISPLAYBUSY, s, [])
  else
    let s := { s with dma_operation_completion_signal := completion_signal }
    let s := { s with dma_operation_close_comm := close_comm_when_finish }
    let s := { s with busy_lock := true }
    let s := { s with dma_channel_busy := true }
    (0, s,
      [.mutexEnter .busy, .setBaudrate ST7789V_WRITING_BAUDRATE,
       .dmaTrigger size])

/-- st7789v.c lines 66-92: the DMA completion interrupt handler.  When the
irq0 status of the owned channel is clear (a foreign interrupt) the handler
only logs and returns.  Otherwise it acknowledges the interrupt, reads the
SPI data register once (hardware quirk flush), exits busy_lock, runs
st7789v_end_comm if dma_operation_close_comm is set, and releases and clears
the stored completion semaphore if one was supplied. -/
def st7789v_dma_irq_handler (s : DriverState) : DriverState × List Event :=
  if !s.dma_irq0_status then
    (s, [.logMsg])
  else
    let s := { s with dma_irq0_status := false }
    let s := { s with busy_lock := false }
    let ev0 : List Event := [.irqAck, .drFlushRead, .mutexExit .busy]
    let (s, ev1) :=
      if s.dma_operation_close_comm then
        let (_, s', e) := st7789v_end_comm s
        (s', e)
      else (s, [])
    match s.dma_operation_completion_signal with
    | some h =>
        ({ s with dma_operation_completion_signal := none },
         ev0 ++ ev1 ++ [.semRelease h])
    | none => (s, ev0 ++ ev1)

/-- st7789v.c lines 256-276: wait for a DMA operation.  The two early
returns are modelled directly; the blocking wait of the in-flight case
(channel finish, SPI idle, then a busy_lock enter and exit used as a
barrier) needs the interrupt context to run and is modelled in the
small-step system `CStep` below, so this sequential model returns `none`
for it. -/
def st7789v_sync_dma_operation (s : DriverState) : Option OpResult :=
  if !s.is_plugged then
    some (-ENODISPLAYCONNECTED, s, [])
  else if !st7789v_is_dma_busy s then
    some (0, s, [])
  else
    none

/-- st7789v.c lines 384-410: send a command opcode (and optional parameter
bytes) with DC-line framing.  The NULL-or-empty parameter check
`parameters != NULL && parameter_count > 0` is modelled by the list being
nonempty.  Inner return values are discarded exactly as in the source. -/
def st7789v_send_command_sync (command : Nat) (parameters : List Nat)
    (s : DriverState) : OpResult :=
  if !s.is_plugged then
    (-ENODISPLAYCONNECTED, s, [])
  else if st7789v_is_dma_busy s || st7789v_is_reset_busy s
          || st7789v_is_sleep_busy s then
    (-EDISPLAYBUSY, s, [])
  else
    let command_byte := command % 256
    let (s, e1) := st7789v_begin_command s
    let (_, s, e2) := st7789v_write_sync [command_byte] s
    let (s, e3) := st7789v_end_command s
    if parameters ≠ [] then
      let (_, s, e4) := st7789v_write_sync parameters s
      (0, s, e1 ++ e2 ++ e3 ++ e4)
    else
      (0, s, e1 ++ e2 ++ e3)

/-- st7789v.c lines 414-430: NOOP command. -/
def st7789v_display_no_operation (s : DriverState) : OpResult :=
  if !s.is_plugged then
    (-ENODISPLAYCONNECTED, s, [])
  else if st7789v_is_dma_busy s || st7789v_is_reset_busy s
          || st7789v_is_sleep_busy s then
    (-EDISPLAYBUSY, s, [])
  else
    let (_, s, e1) := st7789v_begin_comm s
    let (_, s, e2) := st7789v_send_command_sync COMMAND_NO_OPERATION [] s
    let (_, s, e3) := st7789v_end_comm s
    (0, s, e1 ++ e2 ++ e3)

/-- st7789v.c lines 432-458: software reset.  reset_lock and
sleep_switch_state_lock are acquired first (lines 441-442), then the command
is sent through st7789v_send_command_sync — whose own advisory check sees
reset_lock held — then two unlock alarms are scheduled.  `sleep_ms(5)` for
sync_delay is a pure wall-clock wait with no state effect and is not
modelled. -/
def st7789v_display_software_reset (sync_delay : Bool) (s : DriverState) :
    OpResult :=
  if !s.is_plugged then
    (-ENODISPLAYCONNECTED, s, [])
  else if st7789v_is_dma_busy s || st7789v_is_reset_busy s
          || st7789v_is_sleep_busy s then
    (-EDISPLAYBUSY, s, [])
  else
    let s := { s with reset_lock := true }
    let s := { s with sleep_switch_state_lock := true }
    let (_, s, e1) := st7789v_begin_comm s
    let (_, s, e2) := st7789v_send_command_sync COMMAND_SOFTWARE_RESET [] s
    let (_, s, e3) := st7789v_end_comm s
    let s := { s with pending_alarms :=
      s.pending_alarms ++ [(5, .resetLockT), (120, .sleepSwitchStateLockT)] }
    let _ := sync_delay
    (0, s,
      [.mutexEnter .reset, .mutexEnter .sleepSwitchState] ++ e1 ++ e2 ++ e3
        ++ [.alarmSet 5 .resetLockT, .alarmSet 120 .sleepSwitchStateLockT])

/-- st7789v.c lines 460-488: read the display id (special dummy-cycle
framing).  Read data is abstracted to zeros, so the computed id value is 0
here; no claim depends on it. -/
def st7789v_display_read_id (s : DriverState) : OpResult :=
  if !s.is_plugged then
    (-ENODISPLAYCONNECTED, s, [])
  else if st7789v_is_dma_busy s || st7789v_is_reset_busy s
          || st7789v_is_sleep_busy s then
    (-EDISPLAYBUSY, s, [])
  else
    let (_, s, e1) := st7789v_begin_comm s
    let (s, e2) := st7789v_begin_command s
    let (_, s, e3) := st7789v_write_sync [COMMAND_READ_DISPLAY_ID] s
    let (s, e4) := st7789v_end_command s
    let (s, e5) := st7789v_dummy_cycle s
    let (_, bs, s, e6) := st7789v_read_sync 3 s
    let (_, s, e7) := st7789v_end_comm s
    let b1 := bs.getD 0 0
    let b2 := bs.getD 1 0
    let b3 := bs.getD 2 0
    ((b1 * 65536 + b2 * 256 + b3 : Nat), s,
      e1 ++ e2 ++ e3 ++ e4 ++ e5 ++ e6 ++ e7)

/-- st7789v.c lines 490-524: read the display status (dummy-cycle framing,
4 bytes). -/
def st7789v_display_read_status (s : DriverState) : OpResult :=
  if !s.is_plugged then
    (-ENODISPLAYCONNECTED, s, [])
  else if st7789v_is_dma_busy s || st7789v_is_reset_busy s
          || st7789v_is_sleep_busy s then
    (-EDISPLAYBUSY, s, [])
  else
    let (_, s, e1) := st7789v_begin_comm s
    let (s, e2) := st7789v_begin_command s
    let (_, s, e3) := st7789v_write_sync [COMMAND_READ_DISPLAY_STATUS] s
    let (s, e4) := st7789v_end_command s
    let (s, e5) := st7789v_dummy_cycle s
    let (_, bs, s, e6) := st7789v_read_sync 4 s
    let (_, s, e7) := st7789v_end_comm s
    let raw := (bs.getD 0 0) * 16777216 + (bs.getD 1 0) * 65536
      + (bs.getD 2 0) * 256 + bs.getD 3 0
    ((raw : Nat), s, e1 ++ e2 ++ e3 ++ e4 ++ e5 ++ e6 ++ e7)

/-- Common shape of the one-byte register reads, st7789v.c lines 526-681 and
1328-1519: open a transaction, send the read command, read one byte, close
the transaction. -/
def st7789v_display_read_register_one_byte (command : Nat)
    (s : DriverState) : OpResult :=
  if !s.is_plugged then
    (-ENODISPLAYCONNECTED, s, [])
  else if st7789v_is_dma_busy s || st7789v_is_reset_busy s
          || st7789v_is_sleep_busy s then
    (-EDISPLAYBUSY, s, [])
  else
    let (_, s, e1) := st7789v_begin_comm s
    let (_, s, e2) := st7789v_send_command_sync command [] s
    let (_, bs, s, e3) := st7789v_read_sync 1 s
    let (_, s, e4) := st7789v_end_comm s
    ((bs.getD 0 0 : Nat), s, e1 ++ e2 ++ e3 ++ e4)

/-- st7789v.c lines 526-550. -/
def st7789v_display_read_power_mode (s : DriverState) : OpResult :=
  st7789v_display_read_register_one_byte COMMAND_READ_DISPLAY_POWER s

/-- st7789v.c lines 553-577. -/
def st7789v_display_read_memory_access_control (s : DriverState) : OpResult :=
  st7789v_display_read_register_one_byte
    COMMAND_READ_DISPLAY_MEMORY_ACCESS_CONTROL s

/-- st7789v.c lines 579-603. -/
def st7789v_display_read_pixel_format (s : DriverState) : OpResult :=
  st7789v_display_read_register_one_byte
    COMMAND_READ_DISPLAY_COLOR_PIXEL_FORMAT s

/-- st7789v.c lines 605-629. -/
def st7789v_display_read_image_mode (s : DriverState) : OpResult :=
  st7789v_display_read_register_one_byte COMMAND_READ_DISPLAY_IMAGE_MODE s

/-- st7789v.c lines 631-655. -/
def st7789v_display_read_signal_mode (s : DriverState) : OpResult :=
  st7789v_display_read_register_one_byte COMMAND_READ_DISPLAY_SIGNAL_MODE s

/-- st7789v.c lines 657-681. -/
def st7789v_display_read_self_diagnostic (s : DriverState) : OpResult :=
  st7789v_display_read_register_one_byte
    COMMAND_READ_DISPLAY_SELF_DIAGNOSTIC s

/-- st7789v.c lines 683-709: sleep in.  Note the order: the SLEEP_IN command
is sent first (line 694), and only then are sleep_lock and
sleep_switch_state_lock acquired (lines 696-697).  `sleep_ms(120)` for
sync_delay has no state effect and is not modelled. -/
def st7789v_display_sleep_in (sync_delay : Bool) (s : DriverState) :
    OpResult :=
  if !s.is_plugged then
    (-ENODISPLAYCONNECTED, s, [])
  else if st7789v_is_dma_busy s || st7789v_is_reset_busy s
          || st7789v_is_sleep_busy s then
    (-EDISPLAYBUSY, s, [])
  else
    let (_, s, e1) := st7789v_begin_comm s
    let (_, s, e2) := st7789v_send_command_sync COMMAND_SLEEP_IN [] s
    let s := { s with sleep_lock := true }
    let s := { s with sleep_switch_state_lock := true }
    let (_, s, e3) := st7789v_end_comm s
    let s := { s with pending_alarms :=
      s.pending_alarms ++ [(5, .sleepLockT), (120, .sleepSwitchStateLockT)] }
    let _ := sync_delay
    (0, s,
      e1 ++ e2 ++ [.mutexEnter .sleep, .mutexEnter .sleepSwitchState] ++ e3
        ++ [.alarmSet 5 .sleepLockT, .alarmSet 120 .sleepSwitchStateLockT])

/-- st7789v.c lines 711-737: sleep out; same shape as sleep in. -/
def st7789v_display_sleep_out (sync_delay : Bool) (s : DriverState) :
    OpResult :=
  if !s.is_plugged then
    (-ENODISPLAYCONNECTED, s, [])
  else if st7789v_is_dma_busy s || st7789v_is_reset_busy s
          || st7789v_is_sleep_busy s then
    (-EDISPLAYBUSY, s, [])
  else
    let (_, s, e1) := st7789v_begin_comm s
    let (_, s, e2) := st7789v_send_command_sync COMMAND_SLEEP_OUT [] s
    let s := { s with sleep_lock := true }
    let s := { s with sleep_switch_state_lock := true }
    let (_, s, e3) := st7789v_end_comm s
    let s := { s with pending_alarms :=
      s.pending_alarms ++ [(5, .sleepLockT), (120, .sleepSwitchStateLockT)] }
    let _ := sync_delay
    (0, s,
      e1 ++ e2 ++ [.mutexEnter .sleep, .mutexEnter .sleepSwitchState] ++ e3
        ++ [.alarmSet 5 .sleepLockT, .alarmSet 120 .sleepSwitchStateLockT])

/-- Common shape of the parameterless or fixed-parameter command writes:
open a transaction, send the command with the given parameter bytes, close
the transaction.  Mirrors the repeated pattern of st7789v.c lines 739-1326
(each listed operation below names its own source lines). -/
def st7789v_display_simple_command (command : Nat) (parameters : List Nat)
    (s : DriverState) : OpResult :=
  if !s.is_plugged then
    (-ENODISPLAYCONNECTED, s, [])
  else if st7789v_is_dma_busy s || st7789v_is_reset_busy s
          || st7789v_is_sleep_busy s then
    (-EDISPLAYBUSY, s, [])
  else
    let (_, s, e1) := st7789v_begin_comm s
    let (_, s, e2) := st7789v_send_command_sync command parameters s
    let (_, s, e3) := st7789v_end_comm s
    (0, s, e1 ++ e2 ++ e3)

/-- st7789v.c lines 739-757. -/
def st7789v_display_set_normal_mode_state (enable : Bool)
    (s : DriverState) : OpResult :=
  st7789v_display_simple_command
    (if enable then COMMAND_NORMAL_DISPLAY_MODE_ON
     else COMMAND_PARTIAL_DISPLAY_MODE_ON) [] s

/-- st7789v.c lines 759-777. -/
def st7789v_display_enable_inversion (enable : Bool) (s : DriverState) :
    OpResult :=
  st7789v_display_simple_command
    (if enable then COMMAND_DISPLAY_INVERSION_ON
     else COMMAND_DISPLAY_INVERSION_OFF) [] s

/-- Gamma curve selector, st7789v.h enum st7789v_gamma_curve_t. -/
inductive GammaCurve where
  | oneDot0
  | twoDot5
  | oneDot8
  | twoDot2
deriving DecidableEq

/-- The switch of st7789v.c lines 788-807: raw_value starts at 0x01 (the
bitmask for curve 2.2) and is overwritten for the three explicit cases. -/
def gamma_curve_raw_value : GammaCurve → Nat
  | .oneDot0 => 0x08
  | .twoDot5 => 0x04
  | .oneDot8 => 0x02
  | .twoDot2 => 0x01

/-- st7789v.c lines 779-818: GAMMA_SET is sent with no parameters, then the
selector byte is written with a separate st7789v_write_sync. -/
def st7789v_display_set_gamma_correction_curve (gamma_curve : GammaCurve)
    (s : DriverState) : OpResult :=
  if !s.is_plugged then
    (-ENODISPLAYCONNECTED, s, [])
  else if st7789v_is_dma_busy s || st7789v_is_reset_busy s
          || st7789v_is_sleep_busy s then
    (-EDISPLAYBUSY, s, [])
  else
    let raw_value := gamma_curve_raw_value gamma_curve
    let (_, s, e1) := st7789v_begin_comm s
    let (_, s, e2) := st7789v_send_command_sync COMMAND_GAMMA_SET [] s
    let (_, s, e3) := st7789v_write_sync [raw_value] s
    let (_, s, e4) := st7789v_end_comm s
    (0, s, e1 ++ e2 ++ e3 ++ e4)

/-- st7789v.c lines 820-836. -/
def st7789v_display_turn_on (s : DriverState) : OpResult :=
  st7789v_display_simple_command COMMAND_DISPLAY_ON [] s

/-- st7789v.c lines 838-854. -/
def st7789v_display_turn_off (s : DriverState) : OpResult :=
  st7789v_display_simple_command COMMAND_DISPLAY_OFF [] s

/-- Big-endian split of a 16-bit parameter into two bytes,
`(x >> 8) & 0xFF` and `x & 0xFF`. -/
def u16bytes (x : Nat) : List Nat :=
  [(x / 256) % 256, x % 256]

/-- st7789v.c lines 856-886: no range validation is performed; the start and
end values are split into bytes and sent unconditionally. -/
def st7789v_display_set_column_address_window (start_addr end_addr : Nat)
    (s : DriverState) : OpResult :=
  st7789v_display_simple_command COMMAND_COLUMN_ADDRESS_SET
    (u16bytes start_addr ++ u16bytes end_addr) s

/-- st7789v.c lines 888-918: no range validation is performed. -/
def st7789v_display_set_row_address_window (start_addr end_addr : Nat)
    (s : DriverState) : OpResult :=
  st7789v_display_simple_command COMMAND_ROW_ADDRESS_SET
    (u16bytes start_addr ++ u16bytes end_addr) s

/-- st7789v.c lines 920-940. -/
def st7789v_display_memory_write_sync (buffer : List Nat)
    (continue_writing : Bool) (s : DriverState) : OpResult :=
  st7789v_display_simple_command
    (if continue_writing then COMMAND_MEMORY_WRITE_CONTINUE
     else COMMAND_MEMORY_WRITE) buffer s

/-- st7789v.c lines 942-973: send the memory-write opcode, then start a DMA
transfer with close_comm_when_finish set, leaving the transaction open for
the interrupt handler to close. -/
def st7789v_display_memory_write_async (size : Nat)
    (completion_signal : Option Nat) (continue_writing : Bool)
    (s : DriverState) : OpResult :=
  if !s.is_plugged then
    (-ENODISPLAYCONNECTED, s, [])
  else if st7789v_is_dma_busy s || st7789v_is_reset_busy s
          || st7789v_is_sleep_busy s then
    (-EDISPLAYBUSY, s, [])
  else
    let (_, s, e1) := st7789v_begin_comm s
    let (_, s, e2) := st7789v_send_command_sync
      (if continue_writing then COMMAND_MEMORY_WRITE_CONTINUE
       else COMMAND_MEMORY_WRITE) [] s
    let (_, s, e3) := st7789v_dma_write size completion_signal true s
    (0, s, e1 ++ e2 ++ e3)

/-- st7789v.c lines 975-1001. -/
def st7789v_display_memory_read_sync (size : Nat) (continue_reading : Bool)
    (s : DriverState) : OpResult :=
  if !s.is_plugged then
    (-ENODISPLAYCONNECTED, s, [])
  else if st7789v_is_dma_busy s || st7789v_is_reset_busy s
          || st7789v_is_sleep_busy s then
    (-EDISPLAYBUSY, s, [])
  else
    let (_, s, e1) := st7789v_begin_comm s
    let (_, s, e2) := st7789v_send_command_sync
      (if continue_reading then COMMAND_MEMORY_READ_CONTINUE
       else COMMAND_MEMORY_READ) [] s
    let (_, _, s, e3) := st7789v_read_sync size s
    let (_, s, e4) := st7789v_end_comm s
    (0, s, e1 ++ e2 ++ e3 ++ e4)

/-- st7789v.c lines 1003-1029. -/
def st7789v_display_set_partial_area (start_addr end_addr : Nat)
    (s : DriverState) : OpResult :=
  st7789v_display_simple_command COMMAND_PARTIAL_AREA
    (u16bytes start_addr ++ u16bytes end_addr) s

/-- st7789v.c lines 1031-1069: the three areas must sum to exactly 320
(checked after the plugged and advisory checks, before any transaction is
opened); on failure the function returns -ENOTINRANGE without touching
anything. -/
def st7789v_display_set_vertical_scrolling_parameters
    (top_fixed_area vertical_scrolling_area bottom_fixed_area : Nat)
    (s : DriverState) : OpResult :=
  if !s.is_plugged then
    (-ENODISPLAYCONNECTED, s, [])
  else if st7789v_is_dma_busy s || st7789v_is_reset_busy s
          || st7789v_is_sleep_busy s then
    (-EDISPLAYBUSY, s, [])
  else if top_fixed_area + vertical_scrolling_area + bottom_fixed_area
        ≠ 320 then
    (-ENOTINRANGE, s, [])
  else
    let parameters := u16bytes top_fixed_area
      ++ u16bytes vertical_scrolling_area ++ u16bytes bottom_fixed_area
    let (_, s, e1) := st7789v_begin_comm s
    let (_, s, e2) := st7789v_send_command_sync
      COMMAND_VERTICAL_SCROLLING_DEFINITION parameters s
    let (_, s, e3) := st7789v_end_comm s
    (0, s, e1 ++ e2 ++ e3)

/-- st7789v.c lines 1071-1089. -/
def st7789v_display_set_tearing_line_effect_enabled (enable : Bool)
    (s : DriverState) : OpResult :=
  st7789v_display_simple_command
    (if enable then COMMAND_TEARING_EFFECT_LINE_ON
     else COMMAND_TEARING_EFFECT_LINE_OFF) [] s

/-- st7789v.c lines 1091-1107: the raw MADCTL byte is sent as the single
parameter. -/
def st7789v_display_set_memory_access_control (madctl_raw : Nat)
    (s : DriverState) : OpResult :=
  st7789v_display_simple_command COMMAND_MEMORY_ACCESS_CONTROL [madctl_raw] s

/-- st7789v.c lines 1109-1130. -/
def st7789v_display_set_vertical_scrolling_start_address (address : Nat)
    (s : DriverState) : OpResult :=
  st7789v_display_simple_command COMMAND_VERTICAL_SCROLL_START_ADDRESS
    (u16bytes address) s

/-- st7789v.c lines 1132-1150. -/
def st7789v_display_set_idle (enable : Bool) (s : DriverState) : OpResult :=
  st7789v_display_simple_command
    (if enable then COMMAND_IDLE_MODE_ON else COMMAND_IDLE_MODE_OFF) [] s

/-- st7789v.c lines 1152-1168. -/
def st7789v_display_set_pixel_format (colmod_raw : Nat) (s : DriverState) :
    OpResult :=
  st7789v_display_simple_command COMMAND_COLOR_PIXEL_FORMAT [colmod_raw] s

/-- st7789v.c lines 1170-1192. -/
def st7789v_display_set_tear_scanline (scanline_number : Nat)
    (s : DriverState) : OpResult :=
  st7789v_display_simple_command COMMAND_SET_TEAR_SCANLINE
    (u16bytes scanline_number) s

/-- st7789v.c lines 1194-1218: GET_SCANLINE with a dummy one-byte read then
a two-byte read. -/
def st7789v_display_get_scanline (s : DriverState) : OpResult :=
  if !s.is_plugged then
    (-ENODISPLAYCONNECTED, s, [])
  else if st7789v_is_dma_busy s || st7789v_is_reset_busy s
          || st7789v_is_sleep_busy s then
    (-EDISPLAYBUSY, s, [])
  else
    let (_, s, e1) := st7789v_begin_comm s
    let (_, s, e2) := st7789v_send_command_sync COMMAND_GET_SCANLINE [] s
    let (_, _, s, e3) := st7789v_read_sync 1 s
    let (_, bs, s, e4) := st7789v_read_sync 2 s
    let (_, s, e5) := st7789v_end_comm s
    (((bs.getD 0 0) * 256 + bs.getD 1 0 : Nat), s,
      e1 ++ e2 ++ e3 ++ e4 ++ e5)

/-- st7789v.c lines 1220-1236. -/
def st7789v_display_set_display_brightness (value : Nat) (s : DriverState) :
    OpResult :=
  st7789v_display_simple_command COMMAND_WRITE_DISPLAY_BRIGHTNESS [value] s

/-- st7789v.c lines 1238-1258. -/
def st7789v_display_get_display_brightness (s : DriverState) : OpResult :=
  st7789v_display_read_register_one_byte COMMAND_READ_DISPLAY_BRIGHTNESS s

/-- st7789v.c lines 1260-1276. -/
def st7789v_display_set_ctrl_register (ctrl_raw : Nat) (s : DriverState) :
    OpResult :=
  st7789v_display_simple_command COMMAND_WRITE_CTRL_DISPLAY [ctrl_raw] s

/-- st7789v.c lines 1278-1302: READ_CTRL_DISPLAY is sent with the address of
an uninitialized local byte as a one-byte parameter buffer; that
uninitialized byte is abstracted as 0 here.  Then one byte is read back. -/
def st7789v_display_get_ctrl_register (s : DriverState) : OpResult :=
  if !s.is_plugged then
    (-ENODISPLAYCONNECTED, s, [])
  else if st7789v_is_dma_busy s || st7789v_is_reset_busy s
          || st7789v_is_sleep_busy s then
    (-EDISPLAYBUSY, s, [])
  else
    let (_, s, e1) := st7789v_begin_comm s
    let (_, s, e2) := st7789v_send_command_sync COMMAND_READ_CTRL_DISPLAY
      [0] s
    let (_, bs, s, e3) := st7789v_read_sync 1 s
    let (_, s, e4) := st7789v_end_comm s
    ((bs.getD 0 0 : Nat), s, e1 ++ e2 ++ e3 ++ e4)

/-- st7789v.c lines 1304-1326. -/
def st7789v_display_set_adaptive_brightness_color_enhancement
    (coca_raw : Nat) (s : DriverState) : OpResult :=
  st7789v_display_simple_command
    COMMAND_WRITE_CONTENT_ADAPTIVE_BRIGHTNESS_COLOR_ENHANCEMENT [coca_raw] s

/-- st7789v.c lines 1328-1359 (result masked with 0x3 in the source; the
abstracted read data is 0 either way). -/
def st7789v_display_read_content_adaptive_brightness (s : DriverState) :
    OpResult :=
  st7789v_display_read_register_one_byte
    COMMAND_READ_CONTENT_ADAPTIVE_BRIGHTNESS s

/-- st7789v.c lines 1361-1381. -/
def st7789v_display_set_content_adaptive_minimum_brightness (value : Nat)
    (s : DriverState) : OpResult :=
  st7789v_display_simple_command
    COMMAND_WRITE_CONTENT_ADAPTIVE_MINIMUM_BRIGHTNESS [value] s

/-- st7789v.c lines 1383-1408. -/
def st7789v_display_read_content_adaptive_minimum_brightness
    (s : DriverState) : OpResult :=
  st7789v_display_read_register_one_byte
    COMMAND_READ_CONTENT_ADAPTIVE_MINIMUM_BRIGHTNESS s

/-- st7789v.c lines 1410-1441. -/
def st7789v_display_read_adaptive_brightness_control_self_diagnostic
    (s : DriverState) : OpResult :=
  st7789v_display_read_register_one_byte
    COMMAND_READ_AUTOMATIC_BRIGHTNESS_SELF_DIAGNOSTIC s

/-- st7789v.c lines 1443-1467. -/
def st7789v_display_read_id_1 (s : DriverState) : OpResult :=
  st7789v_display_read_register_one_byte COMMAND_READ_ID_1 s

/-- st7789v.c lines 1469-1493. -/
def st7789v_display_read_id_2 (s : DriverState) : OpResult :=
  st7789v_display_read_register_one_byte COMMAND_READ_ID_2 s

/-- st7789v.c lines 1495-1519. -/
def st7789v_display_read_id_3 (s : DriverState) : OpResult :=
  st7789v_display_read_register_one_byte COMMAND_READ_ID_3 s

/-- The public guarded operations of the driver: the raw synchronous
write/read, the DMA write, the command dispatcher, and every high-level
display command of st7789v.c lines 384-1519.  (Transaction framing
begin/end_comm, begin/end_command, the dummy cycle, the DMA completion
wait, and init/deinit are separate functions above; the source gives them
no advisory busy guard.) -/
inductive PublicOp where
  | writeSync (buffer : List Nat)
  | readSync (count : Nat)
  | dmaWrite (size : Nat) (sig : Option Nat) (closeComm : Bool)
  | sendCommandSync (command : Nat) (parameters : List Nat)
  | noOperation
  | softwareReset (syncDelay : Bool)
  | readId
  | readStatus
  | readPowerMode
  | readMemoryAccessControl
  | readPixelFormat
  | readImageMode
  | readSignalMode
  | readSelfDiagnostic
  | sleepIn (syncDelay : Bool)
  | sleepOut (syncDelay : Bool)
  | setNormalModeState (enable : Bool)
  | enableInversion (enable : Bool)
  | setGammaCorrectionCurve (curve : GammaCurve)
  | turnOn
  | turnOff
  | setColumnAddressWindow (start_addr end_addr : Nat)
  | setRowAddressWindow (start_addr end_addr : Nat)
  | memoryWriteSync (buffer : List Nat) (cont : Bool)
  | memoryWriteAsync (size : Nat) (sig : Option Nat) (cont : Bool)
  | memoryReadSync (size : Nat) (cont : Bool)
  | setPartialArea (start_addr end_addr : Nat)
  | setVerticalScrollingParameters (tfa vsa bfa : Nat)
  | setTearingLineEffectEnabled (enable : Bool)
  | setMemoryAccessControl (madctl_raw : Nat)
  | setVerticalScrollingStartAddress (address : Nat)
  | setIdle (enable : Bool)
  | setPixelFormat (colmod_raw : Nat)
  | setTearScanline (n : Nat)
  | getScanline
  | setDisplayBrightness (value : Nat)
  | getDisplayBrightness
  | setCtrlRegister (ctrl_raw : Nat)
  | getCtrlRegister
  | setAdaptiveBrightnessColorEnhancement (coca_raw : Nat)
  | readContentAdaptiveBrightness
  | setContentAdaptiveMinimumBrightness (value : Nat)
  | readContentAdaptiveMinimumBrightness
  | readAdaptiveBrightnessControlSelfDiagnostic
  | readId1
  | readId2
  | readId3
deriving DecidableEq

/-- Dispatch a public operation to its model function. -/
def runOp : PublicOp → DriverState → OpResult
  | .writeSync buffer, s => st7789v_write_sync buffer s
  | .readSync count, s =>
      let (r, _, s, e) := st7789v_read_sync count s
      (r, s, e)
  | .dmaWrite size sig closeComm, s => st7789v_dma_write size sig closeComm s
  | .sendCommandSync c p, s => st7789v_send_command_sync c p s
  | .noOperation, s => st7789v_display_no_operation s
  | .softwareReset sd, s => st7789v_display_software_reset sd s
  | .readId, s => st7789v_display_read_id s
  | .readStatus, s => st7789v_display_read_status s
  | .readPowerMode, s => st7789v_display_read_power_mode s
  | .readMemoryAccessControl, s =>
      st7789v_display_read_memory_access_control s
  | .readPixelFormat, s => st7789v_display_read_pixel_format s
  | .readImageMode, s => st7789v_display_read_image_mode s
  | .readSignalMode, s => st7789v_display_read_signal_mode s
  | .readSelfDiagnostic, s => st7789v_display_read_self_diagnostic s
  | .sleepIn sd, s => st7789v_display_sleep_in sd s
  | .sleepOut sd, s => st7789v_display_sleep_out sd s
  | .setNormalModeState b, s => st7789v_display_set_normal_mode_state b s
  | .enableInversion b, s => st7789v_display_enable_inversion b s
  | .setGammaCorrectionCurve g, s =>
      st7789v_display_set_gamma_correction_curve g s
  | .turnOn, s => st7789v_display_turn_on s
  | .turnOff, s => st7789v_display_turn_off s
  | .setColumnAddressWindow a b, s =>
      st7789v_display_set_column_address_window a b s
  | .setRowAddressWindow a b, s =>
      st7789v_display_set_row_address_window a b s
  | .memoryWriteSync buf c, s => st7789v_display_memory_write_sync buf c s
  | .memoryWriteAsync size sig c, s =>
      st7789v_display_memory_write_async size sig c s
  | .memoryReadSync size c, s => st7789v_display_memory_read_sync size c s
  | .setPartialArea a b, s => st7789v_display_set_partial_area a b s
  | .setVerticalScrollingParameters a b c, s =>
      st7789v_display_set_vertical_scrolling_parameters a b c s
  | .setTearingLineEffectEnabled b, s =>
      st7789v_display_set_tearing_line_effect_enabled b s
  | .setMemoryAccessControl r, s =>
      st7789v_display_set_memory_access_control r s
  | .setVerticalScrollingStartAddress a, s =>
      st7789v_display_set_vertical_scrolling_start_address a s
  | .setIdle b, s => st7789v_display_set_idle b s
  | .setPixelFormat r, s => st7789v_display_set_pixel_format r s
  | .setTearScanline n, s => st7789v_display_set_tear_scanline n s
  | .getScanline, s => st7789v_display_get_scanline s
  | .setDisplayBrightness v, s =>
      st7789v_display_set_display_brightness v s
  | .getDisplayBrightness, s => st7789v_display_get_display_brightness s
  | .setCtrlRegister r, s => st7789v_display_set_ctrl_register r s
  | .getCtrlRegister, s => st7789v_display_get_ctrl_register s
  | .setAdaptiveBrightnessColorEnhancement r, s =>
      st7789v_display_set_adaptive_brightness_color_enhancement r s
  | .readContentAdaptiveBrightness, s =>
      st7789v_display_read_content_adaptive_brightness s
  | .setContentAdaptiveMinimumBrightness v, s =>
      st7789v_display_set_content_adaptive_minimum_brightness v s
  | .readContentAdaptiveMinimumBrightness, s =>
      st7789v_display_read_content_adaptive_minimum_brightness s
  | .readAdaptiveBrightnessControlSelfDiagnostic, s =>
      st7789v_display_read_adaptive_brightness_control_self_diagnostic s
  | .readId1, s => st7789v_display_read_id_1 s
  | .readId2, s => st7789v_display_read_id_2 s
  | .readId3, s => st7789v_display_read_id_3 s

/-- System-level steps interleaved with the caller, for the temporal
claims: a public call, a scheduled alarm firing (unlock_mutex_alarm_callback,
st7789v.c lines 94-100, releasing the mutex passed at add_alarm_in_ms), the
hardware completing an in-flight DMA transfer (channel no longer busy, irq0
status raised), and the completion interrupt handler running. -/
inductive SysStep where
  | call (op : PublicOp)
  | alarmFire (t : AlarmTarget)
  | dmaComplete
  | irqRun
deriving DecidableEq

/-- Effect of one system step on the driver state. -/
def sysStep : SysStep → DriverState → DriverState
  | .call op, s => (runOp op s).2.1
  | .alarmFire .resetLockT, s =>
      { s with reset_lock := false,
               pending_alarms :=
                 s.pending_alarms.filter (fun a => a.2 ≠ .resetLockT) }
  | .alarmFire .sleepLockT, s =>
      { s with sleep_lock := false,
               pending_alarms :=
                 s.pending_alarms.filter (fun a => a.2 ≠ .sleepLockT) }
  | .alarmFire .sleepSwitchStateLockT, s =>
      { s with sleep_switch_state_lock := false,
               pending_alarms :=
                 s.pending_alarms.filter
                   (fun a => a.2 ≠ .sleepSwitchStateLockT) }
  | .dmaComplete, s =>
      { s with dma_channel_busy := false, dma_irq0_status := true }
  | .irqRun, s => (st7789v_dma_irq_handler s).1

/-- Run a list of system steps in order. -/
def runTrace (tr : List SysStep) (s : DriverState) : DriverState :=
  tr.foldl (fun s st => sysStep st s) s

/-!
Small-step interleaving model of the busy_lock protocol.

The operations of st7789v.c that touch busy_lock are decomposed at the
points where the interrupt context can interleave with the single caller
context (spec section 5: callers serialize their own top-level requests;
the DMA completion interrupt runs asynchronously):

* a synchronous write or read, st7789v.c lines 172-209: advisory guard
  (`dma_channel_is_busy` and the timed-window predicates) /
  mutex_enter_blocking(busy_lock) / transfer and mutex_exit;
* a DMA write, lines 211-254: advisory guard and channel configuration /
  mutex_enter_blocking(busy_lock) / dma_channel_configure with trigger and
  return — busy_lock stays held by the logical DMA operation;
* st7789v_sync_dma_operation, lines 256-276: the in-flight path —
  dma_channel_wait_for_finish_blocking and the spi_is_busy spin /
  mutex_enter_blocking(busy_lock) / mutex_exit(busy_lock);
* hardware transfer completion (channel stops being busy, irq raised);
* the irq handler, lines 66-92, released busy_lock with mutex_exit.

The timed-window locks only make the advisory guard more restrictive and
never gate busy_lock itself, so they are left out of this model.
-/

/-- Logical operation that can own busy_lock: a synchronous write/read, a
DMA transfer (entered by the caller at line 238, exited by the interrupt
handler at line 80), or the enter/exit barrier of
st7789v_sync_dma_operation (lines 272-273). -/
inductive Holder where
  | syncOp
  | dmaOp
  | barrierOp
deriving DecidableEq

/-- Program position of the single caller context between interleaving
points. -/
inductive CallerPhase where
  | idle
  | syncAcquiring
  | syncCS
  | dmaAcquiring
  | dmaTriggering
  | waitFinishing
  | barrierAcquiring
  | barrierHolding
deriving DecidableEq

/-- State of the busy_lock protocol: the caller position, the owner of
busy_lock (`none` models LOCK_INVALID_OWNER_ID), whether the hardware DMA
channel has an in-flight transfer, and whether a completion interrupt is
pending. -/
structure CState where
  phase : CallerPhase
  owner : Option Holder
  dmaInFlight : Bool
  irqPending : Bool
deriving DecidableEq

/-- One atomic step of the protocol.  Caller steps require the caller to be
at the matching position; mutex_enter_blocking steps additionally require
the lock to be free (that is what blocking means); the interrupt steps are
enabled by the hardware flags. -/
inductive CStep : CState → CState → Prop where
  /-- Lines 172-180 / 192-199: the guard of a synchronous write/read passes
  (channel not busy) and the caller proceeds towards mutex_enter. -/
  | syncStart {s : CState} :
      s.phase = .idle → s.dmaInFlight = false →
      CStep s { s with phase := .syncAcquiring }
  /-- Line 182 / 201: mutex_enter_blocking(busy_lock) completes. -/
  | syncAcquire {s : CState} :
      s.phase = .syncAcquiring → s.owner = none →
      CStep s { s with phase := .syncCS, owner := some .syncOp }
  /-- Lines 184-187 / 203-206: the blocking transfer and mutex_exit. -/
  | syncRelease {s : CState} :
      s.phase = .syncCS →
      CStep s { s with phase := .idle, owner := none }
  /-- Lines 211-236: the guard of st7789v_dma_write passes and the channel
  is configured. -/
  | dmaStart {s : CState} :
      s.phase = .idle → s.dmaInFlight = false →
      CStep s { s with phase := .dmaAcquiring }
  /-- Line 238: mutex_enter_blocking(busy_lock); ownership belongs to the
  logical DMA operation from here until the interrupt handler releases. -/
  | dmaAcquire {s : CState} :
      s.phase = .dmaAcquiring → s.owner = none →
      CStep s { s with phase := .dmaTriggering, owner := some .dmaOp }
  /-- Lines 241-253: dma_channel_configure triggers the transfer and the
  call returns, busy_lock still held by the DMA operation. -/
  | dmaTrigger {s : CState} :
      s.phase = .dmaTriggering →
      CStep s { s with phase := .idle, dmaInFlight := true }
  /-- Lines 256-265: st7789v_sync_dma_operation finds the channel busy and
  enters dma_channel_wait_for_finish_blocking. -/
  | waitStart {s : CState} :
      s.phase = .idle → s.dmaInFlight = true →
      CStep s { s with phase := .waitFinishing }
  /-- Lines 265-268: the channel finish wait and the spi_is_busy spin
  complete (both only observe hardware status). -/
  | waitDone {s : CState} :
      s.phase = .waitFinishing → s.dmaInFlight = false →
      CStep s { s with phase := .barrierAcquiring }
  /-- Line 272: the barrier mutex_enter_blocking(busy_lock) completes. -/
  | barrierAcquire {s : CState} :
      s.phase = .barrierAcquiring → s.owner = none →
      CStep s { s with phase := .barrierHolding, owner := some .barrierOp }
  /-- Line 273: the barrier mutex_exit and return. -/
  | barrierRelease {s : CState} :
      s.phase = .barrierHolding →
      CStep s { s with phase := .idle, owner := none }
  /-- Hardware: the triggered transfer finishes; the channel stops being
  busy and the completion interrupt becomes pending. -/
  | dmaComplete {s : CState} :
      s.dmaInFlight = true →
      CStep s { s with dmaInFlight := false, irqPending := true }
  /-- Lines 66-92: the completion handler runs, acknowledges the interrupt
  and exits busy_lock (line 80). -/
  | irqRun {s : CState} :
      s.irqPending = true →
      CStep s { s with irqPending := false, owner := none }

/-- Initial protocol state: caller idle, busy_lock free, no transfer. -/
def initC : CState :=
  { phase := .idle, owner := none, dmaInFlight := false, irqPending := false }

/-- States reachable from the initial protocol state. -/
inductive ReachC : CState → Prop where
  | init : ReachC initC
  | step {s s' : CState} : ReachC s → CStep s s' → ReachC s'

/-- The synchronous operation is holding busy_lock (between its
mutex_enter and mutex_exit). -/
def syncHolds (s : CState) : Bool :=
  s.phase = .syncCS

/-- The logical DMA operation is holding busy_lock: from its mutex_enter
(caller at the trigger point, transfer in flight, or completion interrupt
not yet handled) until the interrupt handler exits the lock. -/
def dmaHolds (s : CState) : Bool :=
  s.phase = .dmaTriggering || s.dmaInFlight || s.irqPending

/-- The barrier of st7789v_sync_dma_operation is holding busy_lock. -/
def barrierHolds (s : CState) : Bool :=
  s.phase = .barrierHolding

/-- Inductive invariant of the busy_lock protocol. -/
def CInv (s : CState) : Prop :=
  (s.dmaInFlight = true → s.owner = some .dmaOp ∧ s.irqPending = false)
  ∧ (s.irqPending = true → s.owner = some .dmaOp ∧ s.dmaInFlight = false)
  ∧ (s.phase = .syncCS → s.owner = some .syncOp)
  ∧ (s.phase = .dmaTriggering →
      s.owner = some .dmaOp ∧ s.dmaInFlight = false ∧ s.irqPending = false)
  ∧ (s.phase = .barrierHolding → s.owner = some .barrierOp)

/-- Plugged, fully idle driver state: the state right after a successful
st7789v_init (is_plugged set at line 339; CS and DC initialized high at
lines 312-313; every mutex free, no transfer, no alarm). -/
def idleState : DriverState :=
  { is_plugged := true
    dma_channel_busy := false
    dma_irq0_status := false
    busy_lock := false
    communication_lock := false
    sleep_lock := false
    sleep_switch_state_lock := false
    reset_lock := false
    dma_operation_completion_signal := none
    dma_operation_close_comm := false
    cs_pin := true
    dc_pin := true
    pending_alarms := [] }

/-- Unplugged but otherwise idle state. -/
def unpluggedState : DriverState :=
  { idleState with is_plugged := false }

/-- Unplugged state in which the advisory guard also holds (reset_lock still
held, e.g. a pending reset-release alarm after a failed bring-up). -/
def unpluggedBusyState : DriverState :=
  { idleState with is_plugged := false, reset_lock := true }

/-- Plugged state in which only the long-delay lock of the timed windows
(sleep_switch_state_lock) is held: between the 5 ms and the 120 ms alarm of
a sleep or reset transition. -/
def longDelayOnlyState : DriverState :=
  { idleState with sleep_switch_state_lock := true,
                   pending_alarms := [(120, .sleepSwitchStateLockT)] }

/-- Plugged state with reset_lock held (inside the 5 ms reset window). -/
def resetHeldState : DriverState :=
  { idleState with reset_lock := true,
                   pending_alarms := [(5, .resetLockT),
                                      (120, .sleepSwitchStateLockT)] }

/-- Protocol state in which the caller sits at the barrier
mutex_enter_blocking of st7789v_sync_dma_operation and the lock is free. -/
def barrierReadyState : CState :=
  { phase := .barrierAcquiring, owner := none,
    dmaInFlight := false, irqPending := false }

/-- Driver state during an asynchronous memory write whose DMA transfer has
just finished (irq0 raised, handler not run yet): busy_lock held by the
transfer, transaction still open, close_comm set, a completion semaphore
stored. -/
def dmaPendingState : DriverState :=
  { idleState with busy_lock := true, communication_lock := true,
                   cs_pin := false, dma_irq0_status := true,
                   dma_operation_close_comm := true,
                   dma_operation_completion_signal := some 7 }

/-- Invariant for the reset window: the link stays plugged and reset_lock
stays held. -/
def C6Inv (s : DriverState) : Prop :=
  s.is_plugged = true ∧ s.reset_lock = true

lemma cinv_init : CInv initC := by
  simp [CInv, initC]

lemma cinv_step {s s' : CState} (hInv : CInv s) (hStep : CStep s s') :
    CInv s' := by
  obtain ⟨hA, hB, hC, hD, hE⟩ := hInv
  cases hStep <;> simp_all [CInv]

/-- Every reachable protocol state satisfies the invariant. -/
lemma cinv_reach {s : CState} (h : ReachC s) : CInv s := by
  induction h with
  | init => exact cinv_init
  | step _ hStep ih => exact cinv_step ih hStep

/-- Every public guarded operation refuses with -EDISPLAYBUSY, performing
no action and no state change, when called plugged with the advisory guard
true. -/
lemma runOp_busy (op : PublicOp) (s : DriverState)
    (hp : s.is_plugged = true) (hb : busyGuard s = true) :
    runOp op s = (-EDISPLAYBUSY, s, []) := by
  have hb' : (st7789v_is_dma_busy s || st7789v_is_reset_busy s
      || st7789v_is_sleep_busy s) = true := hb
  cases op <;>
    simp [runOp, hp, hb',
      st7789v_write_sync, st7789v_read_sync, st7789v_dma_write,
      st7789v_send_command_sync, st7789v_display_no_operation,
      st7789v_display_software_reset, st7789v_display_read_id,
      st7789v_display_read_status,
      st7789v_display_read_register_one_byte,
      st7789v_display_read_power_mode,
      st7789v_display_read_memory_access_control,
      st7789v_display_read_pixel_format, st7789v_display_read_image_mode,
      st7789v_display_read_signal_mode,
      st7789v_display_read_self_diagnostic, st7789v_display_sleep_in,
      st7789v_display_sleep_out, st7789v_display_simple_command,
      st7789v_display_set_normal_mode_state,
      st7789v_display_enable_inversion,
      st7789v_display_set_gamma_correction_curve,
      st7789v_display_turn_on, st7789v_display_turn_off,
      st7789v_display_set_column_address_window,
      st7789v_display_set_row_address_window,
      st7789v_display_memory_write_sync,
      st7789v_display_memory_write_async,
      st7789v_display_memory_read_sync,
      st7789v_display_set_partial_area,
      st7789v_display_set_vertical_scrolling_parameters,
      st7789v_display_set_tearing_line_effect_enabled,
      st7789v_display_set_memory_access_control,
      st7789v_display_set_vertical_scrolling_start_address,
      st7789v_display_set_idle, st7789v_display_set_pixel_format,
      st7789v_display_set_tear_scanline, st7789v_display_get_scanline,
      st7789v_display_set_display_brightness,
      st7789v_display_get_display_brightness,
      st7789v_display_set_ctrl_register,
      st7789v_display_get_ctrl_register,
      st7789v_display_set_adaptive_brightness_color_enhancement,
      st7789v_display_read_content_adaptive_brightness,
      st7789v_display_set_content_adaptive_minimum_brightness,
      st7789v_display_read_content_adaptive_minimum_brightness,
      st7789v_display_read_adaptive_brightness_control_self_diagnostic,
      st7789v_display_read_id_1, st7789v_display_read_id_2,
      st7789v_display_read_id_3]

/-- The interrupt handler never touches the plugged flag or the timed-window
locks. -/
lemma irq_handler_preserves (s : DriverState) :
    (st7789v_dma_irq_handler s).1.is_plugged = s.is_plugged
    ∧ (st7789v_dma_irq_handler s).1.reset_lock = s.reset_lock
    ∧ (st7789v_dma_irq_handler s).1.sleep_lock = s.sleep_lock
    ∧ (st7789v_dma_irq_handler s).1.sleep_switch_state_lock
        = s.sleep_switch_state_lock := by
  obtain ⟨p, db, irq, bl, cl, sl, ssl, rl, sig, cc, cs, dc, pa⟩ := s
  cases irq <;> cases cc <;> cases p <;> cases sig <;>
    simp [st7789v_dma_irq_handler, st7789v_end_comm]

/-- Any system step other than the reset-release alarm preserves the reset
window invariant. -/
lemma c6_preserve (st : SysStep) (s : DriverState)
    (hne : st ≠ .alarmFire .resetLockT) (h : C6Inv s) :
    C6Inv (sysStep st s) := by
  obtain ⟨hp, hr⟩ := h
  cases st with
  | call op =>
      have hb : busyGuard s = true := by
        simp [busyGuard, st7789v_is_reset_busy, hr]
      have := runOp_busy op s hp hb
      simp [sysStep, this]
      exact ⟨hp, hr⟩
  | alarmFire t =>
      cases t with
      | resetLockT => exact absurd rfl hne
      | sleepLockT => exact ⟨hp, hr⟩
      | sleepSwitchStateLockT => exact ⟨hp, hr⟩
  | dmaComplete => exact ⟨hp, hr⟩
  | irqRun =>
      have hpre := irq_handler_preserves s
      exact ⟨hpre.1.trans hp, hpre.2.1.trans hr⟩

/-- The reset window invariant is preserved along any trace that does not
contain the reset-release alarm. -/
lemma c6_trace (tr : List SysStep) (s : DriverState)
    (hne : SysStep.alarmFire .resetLockT ∉ tr) (h : C6Inv s) :
    C6Inv (runTrace tr s) := by
  induction tr generalizing s with
  | nil => exact h
  | cons st rest ih =>
      have hst : st ≠ .alarmFire .resetLockT := fun he => hne (he ▸ .head _)
      have hrest : SysStep.alarmFire .resetLockT ∉ rest :=
        fun hm => hne (.tail _ hm)
      exact ih (sysStep st s) hrest (c6_preserve st s hst h)

/-- The state after st7789v_display_software_reset(false) from a plugged,
guard-free state. -/
lemma software_reset_post (s : DriverState)
    (hp : s.is_plugged = true) (hb : busyGuard s = false) :
    (st7789v_display_software_reset false s).2.1
      = { s with reset_lock := true, sleep_switch_state_lock := true,
                 cs_pin := true, communication_lock := false,
                 pending_alarms := s.pending_alarms
                   ++ [(5, .resetLockT), (120, .sleepSwitchStateLockT)] } := by
  simp only [busyGuard, st7789v_is_dma_busy, st7789v_is_reset_busy,
    st7789v_is_sleep_busy, Bool.or_eq_false_iff] at hb
  obtain ⟨⟨hd, hr⟩, hs⟩ := hb
  simp [st7789v_display_software_reset, st7789v_begin_comm,
    st7789v_send_command_sync, st7789v_end_comm, st7789v_is_dma_busy,
    st7789v_is_reset_busy, st7789v_is_sleep_busy, hp, hd, hr, hs]

/-- The barrier-ready protocol state is reachable: trigger a DMA write, let
the hardware complete it, enter st7789v_sync_dma_operation, let the
completion interrupt run, and pass the finish wait. -/
lemma reach_barrierReady : ReachC barrierReadyState := by
  have h1 : ReachC { initC with phase := .dmaAcquiring } :=
    .step .init (.dmaStart rfl rfl)
  have h2 : ReachC { initC with phase := .dmaTriggering,
                                owner := some .dmaOp } :=
    .step h1 (.dmaAcquire rfl rfl)
  have h3 : ReachC { initC with phase := .idle, owner := some .dmaOp,
                                dmaInFlight := true } :=
    .step h2 (.dmaTrigger rfl)
  have h4 : ReachC { initC with phase := .waitFinishing,
                                owner := some .dmaOp,
                                dmaInFlight := true } :=
    .step h3 (.waitStart rfl rfl)
  have h5 : ReachC { initC with phase := .waitFinishing,
                                owner := some .dmaOp,
                                dmaInFlight := false, irqPending := true } :=
    .step h4 (.dmaComplete rfl)
  have h6 : ReachC { initC with phase := .waitFinishing, owner := none,
                                dmaInFlight := false, irqPending := false } :=
    .step h5 (.irqRun rfl)
  exact .step h6 (.waitDone rfl rfl)

/-- C1 (counterexample): the claim as stated fails when the link is
unplugged while a busy condition holds — the advisory guard is true at
call time, yet st7789v_write_sync returns -ENODISPLAYCONNECTED, not
-EDISPLAYBUSY, because every operation checks is_plugged first. -/
theorem c1_counterexample :
    busyGuard unpluggedBusyState = true
    ∧ (runOp (.writeSync [44]) unpluggedBusyState).1 = -ENODISPLAYCONNECTED
    ∧ (runOp (.writeSync [44]) unpluggedBusyState).1 ≠ -EDISPLAYBUSY := by
  decide

/-- C1 (amended): for every public guarded operation — synchronous
write/read, DMA write, sendCommand, and every high-level display command —
called with the link plugged while dmaBusy() or resetBusy() or sleepBusy()
is true, the operation returns -EDISPLAYBUSY, performs no bus activity, and
changes no driver state; when the link is unplugged, -ENODISPLAYCONNECTED
takes precedence. -/
theorem c1_busy_rejected_when_plugged (op : PublicOp) (s : DriverState)
    (hp : s.is_plugged = true) (hb : busyGuard s = true) :
    runOp op s = (-EDISPLAYBUSY, s, []) :=
  runOp_busy op s hp hb

/-- C1 witness: concrete busy rejection inside a reset window. -/
theorem c1_witness :
    resetHeldState.is_plugged = true ∧ busyGuard resetHeldState = true
    ∧ runOp .noOperation resetHeldState
        = (-EDISPLAYBUSY, resetHeldState, []) :=
  ⟨rfl, rfl, c1_busy_rejected_when_plugged .noOperation resetHeldState
    rfl rfl⟩

/-- C2: the claim holds for the guarded operations (witnessed here by
st7789v_write_sync), but the code contradicts it — and its own header
documentation — on the framing operations: st7789v_end_comm on an unplugged
link returns `false` (value 0, the success value) instead of
-ENODISPLAYCONNECTED, and st7789v_begin_command / st7789v_end_command check
nothing, return void, and toggle the D/C line even when unplugged. -/
theorem c2_unplugged_framing_divergence :
    (st7789v_end_comm unpluggedState).1 = 0
    ∧ (st7789v_end_comm unpluggedState).1 ≠ -ENODISPLAYCONNECTED
    ∧ (st7789v_end_comm unpluggedState).2.1 = unpluggedState
    ∧ (st7789v_end_comm unpluggedState).2.2 = []
    ∧ (st7789v_begin_command unpluggedState).2
        = [.gpioPut ST7789V_PIN_DC false]
    ∧ (st7789v_end_command unpluggedState).2
        = [.gpioPut ST7789V_PIN_DC true]
    ∧ st7789v_write_sync [44] unpluggedState
        = (-ENODISPLAYCONNECTED, unpluggedState, []) := by
  decide

/-- C3: in every reachable interleaving of the call-context operations
(synchronous writes/reads, DMA initiation, the DMA wait barrier) with the
DMA-completion interrupt, no two logical operations hold busy_lock at the
same time. -/
theorem c3_busy_lock_mutual_exclusion (s : CState) (h : ReachC s) :
    ¬(syncHolds s = true ∧ dmaHolds s = true)
    ∧ ¬(syncHolds s = true ∧ barrierHolds s = true)
    ∧ ¬(barrierHolds s = true ∧ dmaHolds s = true) := by
  obtain ⟨hA, hB, hC, hD, hE⟩ := cinv_reach h
  refine ⟨?_, ?_, ?_⟩ <;> rintro ⟨h1, h2⟩ <;>
    simp only [syncHolds, dmaHolds, barrierHolds, Bool.or_eq_true,
      decide_eq_true_eq] at h1 h2
  · rcases h2 with (h2 | h2) | h2
    · exact absurd (h1.symm.trans h2) (by decide)
    · exact absurd ((hC h1).symm.trans (hA h2).1) (by decide)
    · exact absurd ((hC h1).symm.trans (hB h2).1) (by decide)
  · exact absurd (h1.symm.trans h2) (by decide)
  · rcases h2 with (h2 | h2) | h2
    · exact absurd (h1.symm.trans h2) (by decide)
    · exact absurd ((hE h1).symm.trans (hA h2).1) (by decide)
    · exact absurd ((hE h1).symm.trans (hB h2).1) (by decide)

/-- C3 witness: the initial protocol state is reachable and exclusion holds
there. -/
theorem c3_witness :
    ¬(syncHolds initC = true ∧ dmaHolds initC = true)
    ∧ ¬(syncHolds initC = true ∧ barrierHolds initC = true)
    ∧ ¬(barrierHolds initC = true ∧ dmaHolds initC = true) :=
  c3_busy_lock_mutual_exclusion initC ReachC.init

/-- C4 (counterexample): with only the long-delay lock
(sleep_switch_state_lock) held, sleepBusy() and resetBusy() report false
and a command-issuing operation succeeds with bus activity, contradicting
the claim that command issuance is refused while either lock of a window is
held; additionally, with the link unplugged, a held short-delay lock makes
the operation return -ENODISPLAYCONNECTED rather than Busy. -/
theorem c4_counterexample :
    longDelayOnlyState.sleep_switch_state_lock = true
    ∧ st7789v_is_sleep_busy longDelayOnlyState = false
    ∧ st7789v_is_reset_busy longDelayOnlyState = false
    ∧ (runOp .noOperation longDelayOnlyState).1 = 0
    ∧ (runOp .noOperation longDelayOnlyState).1 ≠ -EDISPLAYBUSY
    ∧ spiWrites (runOp .noOperation longDelayOnlyState).2.2
        = [[COMMAND_NO_OPERATION]]
    ∧ unpluggedBusyState.reset_lock = true
    ∧ (runOp .noOperation unpluggedBusyState).1 ≠ -EDISPLAYBUSY := by
  decide

/-- C4 (amended): while a short-delay lock (reset_lock / sleep_lock) is
held, the corresponding advisory predicate resetBusy()/sleepBusy() reports
true, and — provided the link is plugged — every command-issuing operation
returns Busy with no bus activity or state change.  The long-delay lock
(sleep_switch_state_lock) is not consulted by any advisory predicate, so
holding it alone does not make command issuance fail. -/
theorem c4_short_delay_locks_gate_commands (s : DriverState) :
    (s.reset_lock = true → st7789v_is_reset_busy s = true)
    ∧ (s.sleep_lock = true → st7789v_is_sleep_busy s = true)
    ∧ (s.is_plugged = true → s.reset_lock = true ∨ s.sleep_lock = true →
        ∀ op, runOp op s = (-EDISPLAYBUSY, s, [])) := by
  refine ⟨fun h => h, fun h => h, fun hp hor op => ?_⟩
  apply runOp_busy op s hp
  rcases hor with h | h <;>
    simp [busyGuard, st7789v_is_dma_busy, st7789v_is_reset_busy,
      st7789v_is_sleep_busy, h]

/-- C4 witness: concrete refusal inside the 5 ms reset window. -/
theorem c4_witness :
    st7789v_is_reset_busy resetHeldState = true
    ∧ runOp .turnOn resetHeldState = (-EDISPLAYBUSY, resetHeldState, []) :=
  ⟨(c4_short_delay_locks_gate_commands resetHeldState).1 rfl,
   (c4_short_delay_locks_gate_commands resetHeldState).2.2 rfl
     (Or.inl rfl) .turnOn⟩

/-- C5: evaluating st7789v_display_software_reset(false) from a plugged,
fully idle state shows the SOFTWARE_RESET command byte is never written to
the bus: the function acquires reset_lock first, so the inner
st7789v_send_command_sync sees resetBusy() and bails out with Busy (return
value discarded), yet the function still schedules both alarms and returns
success.  By contrast st7789v_display_sleep_in, which sends the command
before taking its locks, does put SLEEP_IN on the bus. -/
theorem c5_software_reset_sends_no_command_byte :
    (st7789v_display_software_reset false idleState).1 = 0
    ∧ spiWrites (st7789v_display_software_reset false idleState).2.2 = []
    ∧ (st7789v_display_software_reset false idleState).2.1.reset_lock = true
    ∧ (st7789v_display_software_reset false idleState).2.1.pending_alarms
        = [(5, .resetLockT), (120, .sleepSwitchStateLockT)]
    ∧ spiWrites (st7789v_display_sleep_in false idleState).2.2
        = [[COMMAND_SLEEP_IN]] := by
  decide

/-- C6: after initiating softwareReset(false) from a plugged state with no
busy condition, resetBusy() is true immediately upon return; along any
subsequent interleaving of public calls, other alarms, DMA completion and
the interrupt handler that does not contain the 5 ms reset-release alarm,
resetBusy() stays true and every public guarded operation returns
-EDISPLAYBUSY with no bus activity and no state change. -/
theorem c6_reset_window_invariant (s0 : DriverState)
    (hp : s0.is_plugged = true) (hb : busyGuard s0 = false)
    (tr : List SysStep) (hne : SysStep.alarmFire .resetLockT ∉ tr) :
    st7789v_is_reset_busy
        (st7789v_display_software_reset false s0).2.1 = true
    ∧ st7789v_is_reset_busy
        (runTrace tr (st7789v_display_software_reset false s0).2.1) = true
    ∧ ∀ op,
        runOp op (runTrace tr (st7789v_display_software_reset false s0).2.1)
          = (-EDISPLAYBUSY,
             runTrace tr (st7789v_display_software_reset false s0).2.1,
             []) := by
  have hpost := software_reset_post s0 hp hb
  have h1 : C6Inv (st7789v_display_software_reset false s0).2.1 := by
    rw [hpost]; exact ⟨hp, rfl⟩
  have h2 := c6_trace tr _ hne h1
  refine ⟨h1.2, h2.2, fun op => ?_⟩
  exact runOp_busy op _ h2.1
    (by simp [busyGuard, st7789v_is_reset_busy, h2.2])

/-- C6 witness: concrete reset window with the 120 ms alarm firing in
between; the window still refuses commands. -/
theorem c6_witness :
    st7789v_is_reset_busy
      (runTrace [SysStep.alarmFire .sleepSwitchStateLockT]
        (st7789v_display_software_reset false idleState).2.1) = true
    ∧ runOp .turnOn
        (runTrace [SysStep.alarmFire .sleepSwitchStateLockT]
          (st7789v_display_software_reset false idleState).2.1)
      = (-EDISPLAYBUSY,
         runTrace [SysStep.alarmFire .sleepSwitchStateLockT]
           (st7789v_display_software_reset false idleState).2.1, []) := by
  have h := c6_reset_window_invariant idleState rfl rfl
    [SysStep.alarmFire .sleepSwitchStateLockT] (by decide)
  exact ⟨h.2.1, h.2.2 .turnOn⟩

/-- C7: when the completion interrupt belongs to the owned channel, the
handler acknowledges it, releases busy_lock exactly once, performs the
transaction-end sequence exactly when close_comm was set, signals the
stored semaphore exactly once and clears the handle exactly when one was
supplied, and running the handler again afterwards has no effect (the
status was acknowledged); a foreign interrupt is ignored without
acknowledgement and without any state change. -/
theorem c7_dma_irq_handler_exactly_once (s : DriverState)
    (hp : s.is_plugged = true) (hl : s.busy_lock = true)
    (hi : s.dma_irq0_status = true) :
    (st7789v_dma_irq_handler s).1.busy_lock = false
    ∧ (st7789v_dma_irq_handler s).2.count (.mutexExit .busy) = 1
    ∧ (s.dma_operation_close_comm = true →
        (st7789v_dma_irq_handler s).1.communication_lock = false
        ∧ (st7789v_dma_irq_handler s).1.cs_pin = true
        ∧ (st7789v_dma_irq_handler s).2.count (.mutexExit .comm) = 1)
    ∧ (s.dma_operation_close_comm = false →
        (st7789v_dma_irq_handler s).1.communication_lock
          = s.communication_lock
        ∧ (st7789v_dma_irq_handler s).2.count (.mutexExit .comm) = 0)
    ∧ (∀ hdl, s.dma_operation_completion_signal = some hdl →
        (st7789v_dma_irq_handler s).1.dma_operation_completion_signal = none
        ∧ (st7789v_dma_irq_handler s).2.count (.semRelease hdl) = 1)
    ∧ (s.dma_operation_completion_signal = none →
        (st7789v_dma_irq_handler s).1.dma_operation_completion_signal = none
        ∧ ∀ hdl, (st7789v_dma_irq_handler s).2.count (.semRelease hdl) = 0)
    ∧ (st7789v_dma_irq_handler s).1.dma_irq0_status = false
    ∧ st7789v_dma_irq_handler (st7789v_dma_irq_handler s).1
        = ((st7789v_dma_irq_handler s).1, [.logMsg])
    ∧ (∀ t : DriverState, t.dma_irq0_status = false →
        st7789v_dma_irq_handler t = (t, [.logMsg])) := by
  obtain ⟨p, db, irq, bl, cl, sl, ssl, rl, sig, cc, cs, dc, pa⟩ := s
  simp only at hp hl hi
  subst hp hl hi
  cases cc <;> rcases sig with _ | hdl <;>
    simp [st7789v_dma_irq_handler, st7789v_end_comm, List.count_cons] <;>
    intro t h1 h2 <;>
    exact absurd (h1.symm.trans h2) (by decide)

/-- C7 witness: concrete completion of an asynchronous memory write with
close_comm set and a stored semaphore. -/
theorem c7_witness :
    (st7789v_dma_irq_handler dmaPendingState).1.busy_lock = false
    ∧ (st7789v_dma_irq_handler dmaPendingState).1.communication_lock = false
    ∧ (st7789v_dma_irq_handler dmaPendingState).2.count (.semRelease 7)
        = 1 := by
  have h := c7_dma_irq_handler_exactly_once dmaPendingState rfl rfl rfl
  exact ⟨h.1, (h.2.2.1 rfl).1, (h.2.2.2.2.1 7 rfl).2⟩

/-- C8: when plugged with no DMA transfer in flight,
st7789v_sync_dma_operation returns success immediately, acquiring no lock
and producing no bus activity; and in the small-step protocol, whenever the
caller stands at the barrier mutex_enter of the in-flight path and the lock
is free (the acquisition can complete), the completion interrupt has
already run: no interrupt is pending and no transfer is in flight. -/
theorem c8_sync_dma_operation :
    (∀ s : DriverState, s.is_plugged = true →
        st7789v_is_dma_busy s = false →
        st7789v_sync_dma_operation s = some (0, s, []))
    ∧ (∀ cs : CState, ReachC cs → cs.phase = .barrierAcquiring →
        cs.owner = none →
        cs.irqPending = false ∧ cs.dmaInFlight = false) := by
  constructor
  · intro s hp hd
    simp [st7789v_sync_dma_operation, hp, hd]
  · intro cs h hph how
    obtain ⟨hA, hB, _, _, _⟩ := cinv_reach h
    constructor
    · cases hir : cs.irqPending
      · rfl
      · have := (hB hir).1; rw [how] at this; cases this
    · cases hfl : cs.dmaInFlight
      · rfl
      · have := (hA hfl).1; rw [how] at this; cases this

/-- C8 witness: the fast path at the idle state, and a reachable
barrier-ready state in which neither an interrupt nor a transfer remains. -/
theorem c8_witness :
    st7789v_sync_dma_operation idleState = some (0, idleState, [])
    ∧ barrierReadyState.irqPending = false
    ∧ barrierReadyState.dmaInFlight = false := by
  refine ⟨c8_sync_dma_operation.1 idleState rfl rfl, ?_, ?_⟩
  · exact (c8_sync_dma_operation.2 barrierReadyState reach_barrierReady
      rfl rfl).1
  · exact (c8_sync_dma_operation.2 barrierReadyState reach_barrierReady
      rfl rfl).2

/-- C9: st7789v_display_set_column_address_window and
st7789v_display_set_row_address_window perform no range validation at all:
called plugged and idle with start=300 > end=100 (out of range for either
row/column-exchange setting documented in the header, which also documents
an ENOTINRANGE return), the column setter returns 0 — not -ENOTINRANGE —
and transmits the command and parameter bytes; likewise the row setter with
start=400, end=0. -/
theorem c9_no_range_validation :
    (st7789v_display_set_column_address_window 300 100 idleState).1 = 0
    ∧ (st7789v_display_set_column_address_window 300 100 idleState).1
        ≠ -ENOTINRANGE
    ∧ spiWrites
        (st7789v_display_set_column_address_window 300 100 idleState).2.2
        = [[COMMAND_COLUMN_ADDRESS_SET], [1, 44, 0, 100]]
    ∧ (st7789v_display_set_row_address_window 400 0 idleState).1 = 0
    ∧ spiWrites
        (st7789v_display_set_row_address_window 400 0 idleState).2.2
        = [[COMMAND_ROW_ADDRESS_SET], [1, 144, 0, 0]] := by
  decide

/-- C10: with the display plugged and no busy condition,
st7789v_display_set_vertical_scrolling_parameters returns -ENOTINRANGE
exactly when top_fixed_area + vertical_scrolling_area + bottom_fixed_area
differs from 320, and on that error path it performs no bus activity and
leaves the driver state unchanged (the check runs before any transaction is
opened). -/
theorem c10_vertical_scrolling_range_check
    (tfa vsa bfa : Nat) (s : DriverState)
    (hp : s.is_plugged = true) (hb : busyGuard s = false) :
    ((st7789v_display_set_vertical_scrolling_parameters tfa vsa bfa s).1
        = -ENOTINRANGE ↔ tfa + vsa + bfa ≠ 320)
    ∧ (tfa + vsa + bfa ≠ 320 →
        st7789v_display_set_vertical_scrolling_parameters tfa vsa bfa s
          = (-ENOTINRANGE, s, [])) := by
  simp only [busyGuard, st7789v_is_dma_busy, st7789v_is_reset_busy,
    st7789v_is_sleep_busy, Bool.or_eq_false_iff] at hb
  obtain ⟨⟨hd, hr⟩, hs⟩ := hb
  by_cases hsum : tfa + vsa + bfa = 320
  · refine ⟨?_, fun h => absurd hsum h⟩
    simp [st7789v_display_set_vertical_scrolling_parameters,
      st7789v_is_dma_busy, st7789v_is_reset_busy, st7789v_is_sleep_busy,
      st7789v_begin_comm, st7789v_send_command_sync, st7789v_write_sync,
      st7789v_begin_command, st7789v_end_command, st7789v_end_comm,
      ENOTINRANGE, hp, hd, hr, hs, hsum]
  · have hres : st7789v_display_set_vertical_scrolling_parameters
        tfa vsa bfa s = (-ENOTINRANGE, s, []) := by
      simp [st7789v_display_set_vertical_scrolling_parameters,
        st7789v_is_dma_busy, st7789v_is_reset_busy, st7789v_is_sleep_busy,
        hp, hd, hr, hs, hsum]
    exact ⟨by simp [hres, hsum], fun _ => hres⟩

/-- C10 witness: a sum of 300 is refused with no activity; the hypotheses
hold at the idle state. -/
theorem c10_witness :
    ((st7789v_display_set_vertical_scrolling_parameters 100 100 100
        idleState).1 = -ENOTINRANGE ↔ (100 + 100 + 100 : Nat) ≠ 320)
    ∧ st7789v_display_set_vertical_scrolling_parameters 100 100 100
        idleState = (-ENOTINRANGE, idleState, []) := by
  have h := c10_vertical_scrolling_range_check 100 100 100 idleState rfl rfl
  exact ⟨h.1, h.2 (by decide)⟩

end ST7789V
